import Mathlib

/-
Verification of the agent-injection engine in src/agentic_injection_system_v2.py.

Modelling conventions for the shallow embedding:
* Python floats are modelled as rationals (ℚ); float literals 0.5, 0.3,
  0.2, 0.1, 0.6, 0.85, 0.9 become 1/2, 3/10, 1/5, 1/10, 3/5, 17/20, 9/10.
  Rounding and NaN behaviour of IEEE floats is not modelled.
* Python dict results are modelled by the structure ExecResult whose fields
  cover every key any code path writes; absent keys are none / default.
* The external text-generation service (openai chat completion) is an
  oracle: each call either returns text (Except.ok) or raises
  (Except.error message).  Prompt strings flow only into that external
  call, so they are not reproduced.
* Wall-clock values (datetime.now, total_seconds) are oracle inputs as
  well: an elapsed-seconds rational per execution, a Nat tick for
  timestamps.
-/

namespace AgenticInjection

/-- Python value appearing under the key files_modified of a project
request: either absent, a list of strings, or some other (non-iterable)
value such as a bool, of which only the truthiness matters. -/
inductive FilesModified where
  | absent : FilesModified
  | strList : List String → FilesModified
  | nonIterable : Bool → FilesModified
deriving DecidableEq

/-- Caller-supplied project context (`project_request` dict). -/
structure ProjectRequest where
  id : Option String := none
  description : Option String := none
  platform : Option String := none
  complexity : Option String := none
  features : List String := []
  files_modified : FilesModified := .absent
deriving DecidableEq

/-- Result dict of one agent execution.  Union of the fields written by
the type-specific branches plus the fields attached by `_execute_agent`
(`success`, `error`, `execution_time`) and read by the MetaAgent
(`quality_score`).  An absent key is `none` (or the default). -/
structure ExecResult where
  success : Bool := false
  error : Option String := none
  execution_time : Option ℚ := none
  quality_score : Option ℚ := none
  analysis : Option String := none
  recommendations_count : Option Nat := none
  test_strategy : Option String := none
  frameworks_recommended : List String := []
  coverage_target : Option String := none
  documentation : Option String := none
  sections_created : List String := []
  completeness_score : Option ℚ := none
  deployment_strategy : Option String := none
  infrastructure_type : Option String := none
  deployment_method : Option String := none
  output : Option String := none
  agent_type : Option String := none
deriving DecidableEq

/-- `MetaAgent._calculate_performance_score`.  Note the Python truthiness
tests: `if result.get('quality_score'):` and
`if result.get('execution_time'):` skip a present-but-zero value. -/
def _calculate_performance_score (result : ExecResult) : ℚ :=
  let score : ℚ := 0
  let score := if result.success then score + 1/2 else score
  let score :=
    match result.quality_score with
    | some q => if q = 0 then score else score + q * (3/10)
    | none => score
  let score :=
    match result.execution_time with
    | some t =>
        if t = 0 then score
        else if t < 5 then score + 1/5
        else if t < 10 then score + 1/10
        else score
    | none => score
  min score 1

/-- One entry of `MetaAgent.execution_history` (the `execution_data`
dict); the wall-clock timestamp stored under the key `execution_time`
is irrelevant to every claim and omitted. -/
structure ExecutionRecord where
  agent_name : String
  agent_type : String
  result : ExecResult
  performance_score : ℚ
deriving DecidableEq

/-- One entry of `MetaAgent.optimization_rules`. -/
structure OptimizationRule where
  type : String
  agent_name : String
  suggestion : String
  priority : String
deriving DecidableEq

/-- The optimization dict literal built in
`MetaAgent._update_optimization_rules`. -/
def mkOptimizationRule (name : String) : OptimizationRule :=
  { type := "performance_improvement"
    agent_name := name
    suggestion := "Consider adjusting agent configuration for better performance"
    priority := "medium" }

/-- Mutable state of `MetaAgent` (`performance_metrics` is initialized
by the source but never read or written afterwards, so it is omitted). -/
structure MetaState where
  execution_history : List ExecutionRecord := []
  optimization_rules : List OptimizationRule := []
deriving DecidableEq

/-- Average of the `performance_score` of the last ten history records,
exactly as computed in `_update_optimization_rules`
(`self.execution_history[-10:]`, sum divided by the window length). -/
def windowAvg (hist : List ExecutionRecord) : ℚ :=
  let recent := hist.drop (hist.length - 10)
  ((recent.map (fun e => e.performance_score)).sum) / (recent.length : ℚ)

/-- `MetaAgent._update_optimization_rules`: runs after the append, reads
`self.execution_history`, and appends one suggestion when the history is
longer than 10 and the recent average is below 0.6. -/
def _update_optimization_rules (s : MetaState) (execution_data : ExecutionRecord) :
    MetaState :=
  if 10 < s.execution_history.length then
    if windowAvg s.execution_history < 3/5 then
      { s with optimization_rules :=
          s.optimization_rules ++ [mkOptimizationRule execution_data.agent_name] }
    else s
  else s

/-- Default invocation parameters of an agent type
(`default_config` dict: model id, max output tokens, temperature). -/
structure AgentConfig where
  model : String
  max_tokens : Nat
  temperature : ℚ
deriving DecidableEq

/-- Per-agent override mapping (`config` key of a rule agent).  Only the
three keys consumed by the executor are modelled; the Python dict merge
`{**default_config, **agent.config}` is the one-level-deep overlay
`mergeConfig` below. -/
structure AgentConfigOverride where
  model : Option String := none
  max_tokens : Option Nat := none
  temperature : Option ℚ := none
deriving DecidableEq

/-- `config = {**agent_info['default_config'], **agent.config}`. -/
def mergeConfig (d : AgentConfig) (o : AgentConfigOverride) : AgentConfig :=
  { model := o.model.getD d.model
    max_tokens := o.max_tokens.getD d.max_tokens
    temperature := o.temperature.getD d.temperature }

/-- The `Agent` dataclass.  `created_at` is set in `__post_init__` and
never read, so it is omitted; `last_executed` is a Nat tick. -/
structure Agent where
  name : String
  agent_type : String
  priority : String
  config : AgentConfigOverride
  status : String := "idle"
  last_executed : Option Nat := none
  execution_count : Nat := 0
deriving DecidableEq

/-- The `Trigger` dataclass. -/
structure Trigger where
  name : String
  condition : String
  agents : List Agent
  enabled : Bool := true
deriving DecidableEq

/-- One entry of `AgentRegistry.agents`. -/
structure AgentInfo where
  description : String
  capabilities : List String
  default_config : AgentConfig
deriving DecidableEq

/-- The fixed dict built in `AgentRegistry.__init__`, as an ordered
association list. -/
def registry_agents : List (String × AgentInfo) :=
  [("code_analysis",
    { description := "Analyzes code quality and suggests improvements"
      capabilities := ["code_review", "refactoring_suggestions", "bug_detection"]
      default_config := { model := "gpt-4", max_tokens := 2000, temperature := 1/10 } }),
   ("test_automation",
    { description := "Generates and maintains test suites"
      capabilities := ["unit_test_generation", "integration_test_setup", "test_maintenance"]
      default_config := { model := "gpt-4", max_tokens := 3000, temperature := 1/5 } }),
   ("documentation",
    { description := "Generates and updates project documentation"
      capabilities := ["readme_generation", "api_docs", "code_comments"]
      default_config := { model := "gpt-4", max_tokens := 2500, temperature := 3/10 } }),
   ("deployment",
    { description := "Handles deployment and infrastructure setup"
      capabilities := ["ci_cd_setup", "infrastructure_as_code", "deployment_automation"]
      default_config := { model := "gpt-4", max_tokens := 4000, temperature := 1/10 } })]

/-- `AgentRegistry.get_agent_info`: `self.agents.get(agent_type)`. -/
def get_agent_info (agent_type : String) : Option AgentInfo :=
  registry_agents.lookup agent_type

/-- `AgentRegistry.list_agents`: `list(self.agents.keys())`. -/
def list_agents : List String :=
  registry_agents.map (fun p => p.1)

/-- The `execution_data` dict literal built in
`MetaAgent.analyze_execution`. -/
def execRecord (agent : Agent) (result : ExecResult) : ExecutionRecord :=
  { agent_name := agent.name
    agent_type := agent.agent_type
    result := result
    performance_score := _calculate_performance_score result }

/-- `MetaAgent.analyze_execution`: build the `execution_data` record,
append it to the history, then run `_update_optimization_rules`. -/
def analyze_execution (s : MetaState) (agent : Agent) (result : ExecResult) :
    MetaState :=
  let execution_data := execRecord agent result
  let s1 := { s with execution_history := s.execution_history ++ [execution_data] }
  _update_optimization_rules s1 execution_data

/-- `InjectionEngine._execute_code_analysis_agent`: builds a prompt
(external data only), calls the service once, shapes the payload.  A
service failure is an exception that propagates to `_execute_agent`. -/
def _execute_code_analysis_agent (_agent : Agent) (_ctx : ProjectRequest)
    (_config : AgentConfig) (resp : Except String String) : Except String ExecResult :=
  resp.map fun text =>
    { analysis := some text
      quality_score := some (17/20)
      recommendations_count := some 5 }

/-- `InjectionEngine._execute_test_automation_agent`. -/
def _execute_test_automation_agent (_agent : Agent) (_ctx : ProjectRequest)
    (_config : AgentConfig) (resp : Except String String) : Except String ExecResult :=
  resp.map fun text =>
    { test_strategy := some text
      frameworks_recommended := ["Jest", "Cypress", "Playwright"]
      coverage_target := some "90%" }

/-- `InjectionEngine._execute_documentation_agent`. -/
def _execute_documentation_agent (_agent : Agent) (_ctx : ProjectRequest)
    (_config : AgentConfig) (resp : Except String String) : Except String ExecResult :=
  resp.map fun text =>
    { documentation := some text
      sections_created := ["README", "API Docs", "Setup Guide", "Contributing"]
      completeness_score := some (9/10) }

/-- `InjectionEngine._execute_deployment_agent`. -/
def _execute_deployment_agent (_agent : Agent) (_ctx : ProjectRequest)
    (_config : AgentConfig) (resp : Except String String) : Except String ExecResult :=
  resp.map fun text =>
    { deployment_strategy := some text
      infrastructure_type := some "Cloud-native"
      deployment_method := some "CI/CD Pipeline" }

/-- `InjectionEngine._execute_generic_agent` (unknown types that are
nevertheless in the registry cannot occur; this branch is the `else` of
the type dispatch). -/
def _execute_generic_agent (agent : Agent) (_ctx : ProjectRequest)
    (_config : AgentConfig) (resp : Except String String) : Except String ExecResult :=
  resp.map fun text =>
    { output := some text
      agent_type := some agent.agent_type }

/-- `InjectionEngine._execute_agent`.  `resp` is the outcome of the one
external text-generation call a started branch makes (ok text, or error
with the exception message `str(e)`); `elapsed` is the wall-clock
difference attached as `execution_time`; `now` is the tick stored in
`last_executed`.  Returns the updated agent and the result dict.  Every
exception is caught: the function is total, mirroring the
`try/except` that converts failures into a `success=False` dict. -/
def _execute_agent (agent : Agent) (ctx : ProjectRequest)
    (resp : Except String String) (elapsed : ℚ) (now : Nat) : Agent × ExecResult :=
  let a1 := { agent with status := "executing" }
  match get_agent_info agent.agent_type with
  | none =>
      ({ a1 with status := "error" },
       { success := false
         error := some ("Unknown agent type: " ++ agent.agent_type)
         execution_time := some elapsed })
  | some info =>
      let config := mergeConfig info.default_config agent.config
      let branch : Except String ExecResult :=
        if agent.agent_type == "code_analysis" then
          _execute_code_analysis_agent agent ctx config resp
        else if agent.agent_type == "test_automation" then
          _execute_test_automation_agent agent ctx config resp
        else if agent.agent_type == "documentation" then
          _execute_documentation_agent agent ctx config resp
        else if agent.agent_type == "deployment" then
          _execute_deployment_agent agent ctx config resp
        else
          _execute_generic_agent agent ctx config resp
      match branch with
      | Except.error msg =>
          ({ a1 with status := "error" },
           { success := false
             error := some msg
             execution_time := some elapsed })
      | Except.ok r =>
          ({ a1 with
              status := "completed"
              last_executed := some now
              execution_count := agent.execution_count + 1 },
           { r with execution_time := some elapsed, success := true })

/-- Python `str.lower()` (ASCII case mapping, character by character). -/
def lowerStr (s : String) : String :=
  String.mk (s.data.map Char.toLower)

/-- Whitespace predicate of Python `str.strip()`. -/
def pyWhitespace (c : Char) : Bool :=
  c == ' ' || c == '\t' || c == '\n' || c == '\r'

/-- Python `str.strip()`: drop whitespace from both ends. -/
def stripStr (s : String) : String :=
  String.mk (((s.data.dropWhile pyWhitespace).reverse.dropWhile pyWhitespace).reverse)

/-- `InjectionEngine._evaluate_custom_condition`: one external call; the
reply is stripped, lowercased and compared to the literal "true"; any
exception is caught and yields False. -/
def _evaluate_custom_condition (ai : Except String String) : Bool :=
  match ai with
  | Except.ok s => lowerStr (stripStr s) == "true"
  | Except.error _ => false

/-- Python truthiness of the value stored under `files_modified`, as
used by `project_request.get('files_modified', False)` at the `if` that
consumes `_evaluate_trigger`'s return value. -/
def filesTruthy : FilesModified → Bool
  | FilesModified.absent => false
  | FilesModified.strList l => !l.isEmpty
  | FilesModified.nonIterable t => t

/-- Scan deciding whether `pat` occurs as a contiguous run inside `l`. -/
def charsContain (pat : List Char) : List Char → Bool
  | [] => pat.isEmpty
  | c :: rest => List.isPrefixOf pat (c :: rest) || charsContain pat rest

/-- Substring test `'test' in f.lower()`. -/
def containsTest (f : String) : Bool :=
  charsContain "test".data (lowerStr f).data

/-- The fixed condition vocabulary of `_evaluate_trigger`, in branch
order. -/
def fixedVocabulary : List String :=
  ["always", "file_changed", "test_files_modified", "complexity_high",
   "platform_web", "platform_mobile"]

/-- `InjectionEngine._evaluate_trigger` on an already-extracted
condition string.  The Python function returns a dynamically typed value
whose truthiness decides activation; here the truthiness is taken
immediately (the `file_changed` branch returns the raw field value in
Python).  Iterating a present non-iterable `files_modified` value in the
`test_files_modified` branch raises a TypeError that propagates to the
caller, hence the Except codomain.  `ai` is the external-call outcome
consumed only on the custom-condition path. -/
def _evaluate_trigger (condition : String) (ctx : ProjectRequest)
    (ai : Except String String) : Except String Bool :=
  let c := lowerStr condition
  if c == "always" then Except.ok true
  else if c == "file_changed" then Except.ok (filesTruthy ctx.files_modified)
  else if c == "test_files_modified" then
    match ctx.files_modified with
    | FilesModified.absent => Except.ok false
    | FilesModified.strList l => Except.ok (l.any containsTest)
    | FilesModified.nonIterable _ =>
        Except.error "TypeError: bool object is not iterable"
  else if c == "complexity_high" then
    Except.ok ((ctx.complexity.getD "medium") == "high")
  else if c == "platform_web" then
    Except.ok ((ctx.platform.getD "") == "web")
  else if c == "platform_mobile" then
    Except.ok ((ctx.platform.getD "") == "mobile")
  else Except.ok (_evaluate_custom_condition ai)

/-- One agent entry of the parsed rules document
(`agent_data` dict); a field is `none` when the key is missing. -/
structure AgentData where
  name : Option String := none
  type : Option String := none
  priority : Option String := none
  config : AgentConfigOverride := {}
deriving DecidableEq

/-- One trigger entry of the parsed rules document (`trigger_data`). -/
structure TriggerData where
  name : Option String := none
  condition : Option String := none
  enabled : Option Bool := none
  agents : List AgentData := []
deriving DecidableEq

/-- The `Agent(...)` construction inside `load_rules`: subscript access
`agent_data['name']` / `agent_data['type']` raises a KeyError when the
key is absent; `priority` and `config` use `.get` defaults. -/
def loadAgent (ad : AgentData) : Except String Agent :=
  match ad.name with
  | none => Except.error "KeyError: name"
  | some n =>
      match ad.type with
      | none => Except.error "KeyError: type"
      | some t =>
          Except.ok
            { name := n
              agent_type := t
              priority := ad.priority.getD "medium"
              config := ad.config }

/-- The inner `for agent_data in trigger_data.get('agents', [])` loop:
first failure aborts the whole load. -/
def loadAgents : List AgentData → Except String (List Agent)
  | [] => Except.ok []
  | ad :: rest =>
      match loadAgent ad with
      | Except.error e => Except.error e
      | Except.ok a =>
          match loadAgents rest with
          | Except.error e => Except.error e
          | Except.ok as => Except.ok (a :: as)

/-- One iteration of the outer loop of `load_rules`: the agents list is
built first, then `trigger_data['name']` and `trigger_data['condition']`
are read (KeyError when missing), then the Trigger is constructed. -/
def loadTrigger (td : TriggerData) : Except String Trigger :=
  match loadAgents td.agents with
  | Except.error e => Except.error e
  | Except.ok agents =>
      match td.name with
      | none => Except.error "KeyError: name"
      | some n =>
          match td.condition with
          | none => Except.error "KeyError: condition"
          | some c =>
              Except.ok
                { name := n
                  condition := c
                  agents := agents
                  enabled := td.enabled.getD true }

/-- The outer loop of `load_rules`, threading the growing
`self.triggers` list; on the first malformed entry the exception
propagates, leaving whatever was appended so far installed. -/
def load_rules_go (acc : List Trigger) :
    List TriggerData → List Trigger × Option String
  | [] => (acc, none)
  | td :: rest =>
      match loadTrigger td with
      | Except.error e => (acc, some e)
      | Except.ok t => load_rules_go (acc ++ [t]) rest

/-- `InjectionEngine.load_rules` on an already-YAML-parsed document
(`doc` is the `triggers` list).  `old_triggers` is the engine trigger
list before the call; the source executes `self.triggers = []` before
the parse loop, so the old set is discarded unconditionally.  Returns
the trigger list after the call and the raised error, if any (the
`except` block logs and re-raises). -/
def load_rules (old_triggers : List Trigger) (doc : List TriggerData) :
    List Trigger × Option String :=
  let _ := old_triggers
  load_rules_go [] doc

/-- Required-field check on one document trigger entry (including its
agents), used to state which prefix of a document survives a failed
load. -/
def triggerWellFormed (td : TriggerData) : Bool :=
  td.name.isSome && td.condition.isSome &&
    td.agents.all (fun ad => ad.name.isSome && ad.type.isSome)

/-- One element of the report key `agents_executed`. -/
structure AgentEntry where
  agent_name : String
  agent_type : String
  result : ExecResult
deriving DecidableEq

/-- The report dict returned by `process_project_request` (the
`timestamp` value is wall-clock output and is omitted). -/
structure Report where
  project_id : String
  agents_executed : List AgentEntry
  overall_status : String
  meta_agent_insights : List OptimizationRule
  error : Option String := none
deriving DecidableEq

/-- Oracles for the external world during one `process_project_request`
call: `llm k` is the outcome of the k-th external text-generation call,
`elapsed k` the wall-clock seconds attributed to the k-th call. -/
structure RunCtx where
  llm : Nat → Except String String
  elapsed : Nat → ℚ

/-- Whether evaluating `condition` consumes one external call (only the
custom-condition fallback calls the service). -/
def consumesLLMCall (condition : String) : Bool :=
  !(fixedVocabulary.contains (lowerStr condition))

/-- The inner `for agent in trigger.agents` loop of
`process_project_request`: execute, append the report entry, feed the
MetaAgent, continue.  `k` is the external-call counter (an execution
consumes a call only when its type-specific branch started).  Returns
the updated agents, counter, report entries and MetaAgent state.  No
exception escapes this loop: `_execute_agent` catches everything and
`analyze_execution` is pure bookkeeping. -/
def runAgents (rc : RunCtx) (ctx : ProjectRequest) :
    List Agent → Nat → List AgentEntry → MetaState →
      List Agent × Nat × List AgentEntry × MetaState
  | [], k, es, m => ([], k, es, m)
  | a :: rest, k, es, m =>
      let (a1, res) := _execute_agent a ctx (rc.llm k) (rc.elapsed k) k
      let es1 := es ++ [{ agent_name := a.name, agent_type := a.agent_type, result := res }]
      let m1 := analyze_execution m a1 res
      let k1 := k + (if (get_agent_info a.agent_type).isSome then 1 else 0)
      let (rest1, k2, es2, m2) := runAgents rc ctx rest k1 es1 m1
      (a1 :: rest1, k2, es2, m2)

/-- Outcome of the trigger loop inside the `try` block of
`process_project_request`. -/
structure LoopOut where
  triggers : List Trigger
  calls : Nat
  entries : List AgentEntry
  meta : MetaState
  err : Option String

/-- The `for trigger in self.triggers` loop: skip disabled triggers,
evaluate the condition, run the agents of fired triggers.  An exception
escaping trigger evaluation aborts the loop immediately, keeping the
entries and MetaAgent state accumulated so far. -/
def runTriggers (rc : RunCtx) (ctx : ProjectRequest) :
    List Trigger → Nat → List AgentEntry → MetaState → LoopOut
  | [], k, es, m => { triggers := [], calls := k, entries := es, meta := m, err := none }
  | t :: rest, k, es, m =>
      if t.enabled then
        match _evaluate_trigger t.condition ctx (rc.llm k) with
        | Except.error e =>
            { triggers := t :: rest, calls := k, entries := es, meta := m, err := some e }
        | Except.ok fired =>
            let k1 := k + (if consumesLLMCall t.condition then 1 else 0)
            if fired then
              let (ags, k2, es2, m2) := runAgents rc ctx t.agents k1 es m
              let out := runTriggers rc ctx rest k2 es2 m2
              { out with triggers := { t with agents := ags } :: out.triggers }
            else
              let out := runTriggers rc ctx rest k1 es m
              { out with triggers := t :: out.triggers }
      else
        let out := runTriggers rc ctx rest k es m
        { out with triggers := t :: out.triggers }

/-- `InjectionEngine.process_project_request`.  The results dict starts
with `overall_status` "success" and empty `meta_agent_insights`; the
insights are filled in from the MetaAgent only after the trigger loop
finishes, and the `except` block only sets `overall_status` to "error"
and records the message — so a raised exception leaves the insights
empty.  Returns the report together with the updated engine trigger
list and MetaAgent state. -/
def process_project_request (triggers : List Trigger) (ctx : ProjectRequest)
    (rc : RunCtx) (m : MetaState) : Report × List Trigger × MetaState :=
  let out := runTriggers rc ctx triggers 0 [] m
  match out.err with
  | none =>
      ({ project_id := ctx.id.getD "unknown"
         agents_executed := out.entries
         overall_status := "success"
         meta_agent_insights := out.meta.optimization_rules
         error := none }, out.triggers, out.meta)
  | some e =>
      ({ project_id := ctx.id.getD "unknown"
         agents_executed := out.entries
         overall_status := "error"
         meta_agent_insights := []
         error := some e }, out.triggers, out.meta)

/-- The scoring formula exactly as claim C1 words it (refinement
comparison target, written from the claim, not from the source): 0.5 for
success, plus 0.3 x quality_score when the field is present, plus 0.2
when execution_time is below 5.0, else 0.1 when below 10.0, else 0,
clamped to at most 1.0. -/
def specScoreAsClaimed (r : ExecResult) : ℚ :=
  min ((if r.success then (1/2 : ℚ) else 0) +
       (match r.quality_score with
        | some q => q * (3/10)
        | none => 0) +
       (match r.execution_time with
        | some t => if t < 5 then 1/5 else if t < 10 then 1/10 else 0
        | none => 0)) 1

/-- The scoring formula as the amended claim words it: identical to
`specScoreAsClaimed` except that the time bonus additionally requires a
nonzero (Python-truthy) execution_time, matching the source's
`if result.get('execution_time'):` guard.  (A present-but-zero
quality_score is also skipped by the source, but contributes 0 either
way, so that clause needs no amendment.) -/
def specScoreAsAmended (r : ExecResult) : ℚ :=
  min ((if r.success then (1/2 : ℚ) else 0) +
       (match r.quality_score with
        | some q => q * (3/10)
        | none => 0) +
       (match r.execution_time with
        | some t =>
            if t ≠ 0 ∧ t < 5 then 1/5
            else if t ≠ 0 ∧ t < 10 then 1/10
            else 0
        | none => 0)) 1

/-- One MetaAgent step on a (mutated agent, result) pair, as performed
inside the agent loop of `process_project_request`. -/
def stepMeta (s : MetaState) (p : Agent × ExecResult) : MetaState :=
  analyze_execution s p.1 p.2

/-- A whole sequence of recorded executions starting from a fresh
MetaAgent. -/
def runMeta (l : List (Agent × ExecResult)) : MetaState :=
  l.foldl stepMeta {}

/-- A concrete registered agent used as evaluation input. -/
def demoAgent : Agent :=
  { name := "agent_a"
    agent_type := "code_analysis"
    priority := "medium"
    config := {} }

/-- A concrete trigger whose condition raises a TypeError on `badCtx`. -/
def demoTrigger : Trigger :=
  { name := "t1"
    condition := "test_files_modified"
    agents := []
    enabled := true }

/-- A project request whose `files_modified` value is a present
non-iterable (e.g. the YAML scalar `true`). -/
def badCtx : ProjectRequest :=
  { files_modified := FilesModified.nonIterable true }

/-- Oracles: the external service is down and every call takes no
measured time. -/
def demoRC : RunCtx :=
  { llm := fun _ => Except.error "service down"
    elapsed := fun _ => 0 }

/-- A MetaAgent state that has already accumulated one suggestion. -/
def demoMeta : MetaState :=
  { execution_history := []
    optimization_rules := [mkOptimizationRule "agent_a"] }

lemma update_rules_history (s : MetaState) (ed : ExecutionRecord) :
    (_update_optimization_rules s ed).execution_history = s.execution_history := by
  unfold _update_optimization_rules
  split_ifs <;> rfl

lemma analyze_execution_history (s : MetaState) (a : Agent) (r : ExecResult) :
    (analyze_execution s a r).execution_history =
      s.execution_history ++ [execRecord a r] := by
  unfold analyze_execution
  rw [update_rules_history]

lemma update_rules_of_len_le (s : MetaState) (ed : ExecutionRecord)
    (h : s.execution_history.length ≤ 10) :
    (_update_optimization_rules s ed).optimization_rules = s.optimization_rules := by
  unfold _update_optimization_rules
  rw [if_neg (by omega)]

lemma analyze_rules_of_len_le (s : MetaState) (a : Agent) (r : ExecResult)
    (h : s.execution_history.length + 1 ≤ 10) :
    (analyze_execution s a r).optimization_rules = s.optimization_rules := by
  unfold analyze_execution
  rw [update_rules_of_len_le]
  simp [List.length_append]
  omega

lemma analyze_rules_of_low_avg (s : MetaState) (a : Agent) (r : ExecResult)
    (h : 10 ≤ s.execution_history.length)
    (hlow : windowAvg (s.execution_history ++ [execRecord a r]) < 3/5) :
    (analyze_execution s a r).optimization_rules =
      s.optimization_rules ++ [mkOptimizationRule a.name] := by
  unfold analyze_execution _update_optimization_rules
  rw [if_pos (by simp [List.length_append]; omega), if_pos (by simpa using hlow)]
  simp [execRecord]

lemma runMeta_history (l : List (Agent × ExecResult)) :
    (runMeta l).execution_history = l.map (fun p => execRecord p.1 p.2) := by
  suffices h : ∀ s : MetaState, (l.foldl stepMeta s).execution_history =
      s.execution_history ++ l.map (fun p => execRecord p.1 p.2) by
    simpa [runMeta] using h {}
  induction l with
  | nil => intro s; simp
  | cons p rest ih =>
      intro s
      simp only [List.foldl_cons, List.map_cons, ih, stepMeta,
        analyze_execution_history, List.append_assoc, List.singleton_append]

lemma runMeta_history_length (l : List (Agent × ExecResult)) :
    (runMeta l).execution_history.length = l.length := by
  simp [runMeta_history]

lemma runMeta_take_succ (l : List (Agent × ExecResult)) (k : Nat)
    (hk : k < l.length) :
    runMeta (l.take (k + 1)) = stepMeta (runMeta (l.take k)) (l.get ⟨k, hk⟩) := by
  rw [List.take_succ, List.getElem?_eq_getElem hk]
  simp only [Option.toList_some, runMeta, List.foldl_append, List.foldl_cons,
    List.foldl_nil, List.get_eq_getElem]

lemma runMeta_rules_step (l : List (Agent × ExecResult))
    (hlow : ∀ k, (hk : k < l.length) → 10 < k + 1 →
      windowAvg (runMeta (l.take (k + 1))).execution_history < 3/5)
    (k : Nat) (hk : k < l.length) :
    (runMeta (l.take (k + 1))).optimization_rules =
      (runMeta (l.take k)).optimization_rules ++
        (if 10 < k + 1 then [mkOptimizationRule (l.get ⟨k, hk⟩).1.name] else []) := by
  have hlen : (runMeta (l.take k)).execution_history.length = k := by
    rw [runMeta_history_length, List.length_take]
    omega
  by_cases hc : 10 < k + 1
  · rw [if_pos hc, runMeta_take_succ l k hk]
    have havg := hlow k hk hc
    rw [runMeta_take_succ l k hk, stepMeta, analyze_execution_history] at havg
    exact analyze_rules_of_low_avg _ _ _ (by omega) havg
  · rw [if_neg hc, List.append_nil, runMeta_take_succ l k hk]
    exact analyze_rules_of_len_le _ _ _ (by omega)

lemma runMeta_rules_length (l : List (Agent × ExecResult))
    (hlow : ∀ k, (hk : k < l.length) → 10 < k + 1 →
      windowAvg (runMeta (l.take (k + 1))).execution_history < 3/5) :
    (runMeta l).optimization_rules.length = l.length - 10 := by
  suffices h : ∀ k, k ≤ l.length →
      (runMeta (l.take k)).optimization_rules.length = k - 10 by
    have := h l.length le_rfl
    simpa [List.take_length] using this
  intro k
  induction k with
  | zero => intro _; simp [runMeta, stepMeta]
  | succ n ih =>
      intro hle
      have hn : n < l.length := by omega
      rw [runMeta_rules_step l hlow n hn, List.length_append, ih (by omega)]
      by_cases h10 : 10 < n + 1 <;> simp [h10] <;> omega

/-- Claim C1 (counterexample): the claimed scoring formula — which awards the
0.2 time bonus whenever execution_time is below 5.0 — disagrees with
`_calculate_performance_score` on the result
`{success: false, execution_time: 0.0}`: the source's Python truthiness
guard `if result.get('execution_time'):` skips a present-but-zero time,
so the code scores 0.0 while the claimed formula scores 0.2. -/
theorem perf_score_claimed_formula_fails :
    _calculate_performance_score { success := false, execution_time := some 0 } ≠
      specScoreAsClaimed { success := false, execution_time := some 0 } := by
  norm_num [_calculate_performance_score, specScoreAsClaimed]

set_option maxHeartbeats 1000000 in
/-- Claim C1 (amended): the performance score equals the claimed linear
formula amended only in the time clause (the bonus additionally requires
a nonzero execution_time); the two worked examples of the claim hold:
`{success: true, quality_score: 1.0, execution_time: 2.0}` scores
exactly 1.0 and `{success: false}` scores 0.0. -/
theorem perf_score_equals_amended_formula :
    (∀ r : ExecResult, _calculate_performance_score r = specScoreAsAmended r) ∧
    _calculate_performance_score
      { success := true, quality_score := some 1, execution_time := some 2 } = 1 ∧
    _calculate_performance_score {} = 0 := by
  refine ⟨fun r => ?_,
    by norm_num [_calculate_performance_score],
    by norm_num [_calculate_performance_score]⟩
  rcases r with ⟨succ, err, et, qs, f1, f2, f3, f4, f5, f6, f7, f8, f9, f10, f11, f12, f13⟩
  rcases qs with _ | q <;> rcases et with _ | t <;> rcases succ <;>
    simp only [_calculate_performance_score, specScoreAsAmended] <;>
    split_ifs <;>
    (try (exfalso; tauto)) <;>
    (try subst q) <;>
    (congr 1 <;> ring)

/-- Claim C2 (counterexample): a caller-supplied negative quality_score drives
the stored performance_score below 0: recording
`{quality_score: -1.0}` stores a history record whose score is -0.3,
outside [0,1] (the source clamps only from above, with `min(score, 1.0)`). -/
theorem perf_score_outside_unit_interval :
    (analyze_execution {} demoAgent { quality_score := some (-1) }).execution_history =
      [execRecord demoAgent { quality_score := some (-1) }] ∧
    (execRecord demoAgent { quality_score := some (-1) }).performance_score < 0 := by
  constructor
  · rw [analyze_execution_history]
    rfl
  · show _calculate_performance_score { quality_score := some (-1) } < 0
    norm_num [_calculate_performance_score]

/-- Claim C2 (amended): for every recorded result whose quality_score, when
present, is nonnegative (in particular every result the built-in
executor branches can produce), the performance_score stored in the
appended history record lies in the closed interval [0, 1]. -/
theorem perf_score_unit_interval (s : MetaState) (a : Agent) (r : ExecResult)
    (h : ∀ q : ℚ, r.quality_score = some q → 0 ≤ q) :
    (analyze_execution s a r).execution_history =
      s.execution_history ++ [execRecord a r] ∧
    0 ≤ (execRecord a r).performance_score ∧
    (execRecord a r).performance_score ≤ 1 := by
  refine ⟨analyze_execution_history s a r, ?_, ?_⟩
  · show 0 ≤ _calculate_performance_score r
    rcases r with ⟨succ, err, et, qs, f1, f2, f3, f4, f5, f6, f7, f8, f9, f10, f11, f12, f13⟩
    simp only [_calculate_performance_score]
    refine le_min ?_ (by norm_num)
    rcases qs with _ | q
    · rcases et with _ | t <;> rcases succ <;> simp only [] <;> split_ifs <;> norm_num
    · have hq : 0 ≤ q := h q rfl
      have hq3 : 0 ≤ q * (3/10) := by positivity
      rcases et with _ | t <;> rcases succ <;> simp only [] <;> split_ifs <;> linarith
  · show _calculate_performance_score r ≤ 1
    simp only [_calculate_performance_score]
    exact min_le_right _ _

/-- Claim C2 (witness): instantiation of the amended bound at the concrete
result `{success: true, quality_score: 1.0, execution_time: 2.0}`
recorded into a fresh MetaAgent. -/
theorem perf_score_unit_interval_witness :
    (analyze_execution {} demoAgent
        { success := true, quality_score := some 1, execution_time := some 2 }).execution_history =
      ({} : MetaState).execution_history ++
        [execRecord demoAgent
          { success := true, quality_score := some 1, execution_time := some 2 }] ∧
    0 ≤ (execRecord demoAgent
          { success := true, quality_score := some 1, execution_time := some 2 }).performance_score ∧
    (execRecord demoAgent
          { success := true, quality_score := some 1, execution_time := some 2 }).performance_score ≤ 1 :=
  perf_score_unit_interval {} demoAgent
    { success := true, quality_score := some 1, execution_time := some 2 }
    (fun q hq => by rw [show q = 1 from (Option.some.inj hq).symm]; norm_num)

/-- Claim C3: along any sequence of recorded executions whose rolling average
of the last 10 scores stays below 0.6 whenever the length check runs,
(1) the number of accumulated suggestions is the number of records minus
10 (so it is 0 through record 10, becomes 1 at record 11, and reaches 10
after 20 records), and (2) each record beyond the 10th appends exactly
one new OptimizationSuggestion naming that record's agent, while records
1..10 append none. -/
theorem meta_suggestion_accumulation (l : List (Agent × ExecResult))
    (hlow : ∀ k, (hk : k < l.length) → 10 < k + 1 →
      windowAvg (runMeta (l.take (k + 1))).execution_history < 3/5) :
    (runMeta l).optimization_rules.length = l.length - 10 ∧
    ∀ k, (hk : k < l.length) →
      (runMeta (l.take (k + 1))).optimization_rules =
        (runMeta (l.take k)).optimization_rules ++
          (if 10 < k + 1 then [mkOptimizationRule (l.get ⟨k, hk⟩).1.name] else []) :=
  ⟨runMeta_rules_length l hlow, fun k hk => runMeta_rules_step l hlow k hk⟩

/-- Claim C3 (witness): twenty identical failed executions (each scoring 0)
recorded into a fresh MetaAgent accumulate exactly 20 - 10 = 10
suggestions, and record 11 (index 10) appends exactly the suggestion
naming the recorded agent. -/
theorem meta_suggestion_accumulation_witness :
    (runMeta (List.replicate 20 (demoAgent, ({} : ExecResult)))).optimization_rules.length = 10 ∧
    (runMeta ((List.replicate 20 (demoAgent, ({} : ExecResult))).take 11)).optimization_rules =
      (runMeta ((List.replicate 20 (demoAgent, ({} : ExecResult))).take 10)).optimization_rules ++
        [mkOptimizationRule demoAgent.name] := by
  have hscore : _calculate_performance_score ({} : ExecResult) = 0 := by
    norm_num [_calculate_performance_score]
  have hlow : ∀ k, (hk : k < (List.replicate 20 (demoAgent, ({} : ExecResult))).length) →
      10 < k + 1 →
      windowAvg (runMeta ((List.replicate 20 (demoAgent, ({} : ExecResult))).take (k + 1))).execution_history < 3/5 := by
    intro k hk h10
    rw [runMeta_history, List.take_replicate, List.map_replicate]
    simp only [windowAvg, List.drop_replicate, List.map_replicate, List.sum_replicate,
      List.length_replicate, execRecord, hscore, smul_zero]
    norm_num
  have h := meta_suggestion_accumulation (List.replicate 20 (demoAgent, ({} : ExecResult))) hlow
  refine ⟨?_, ?_⟩
  · have h1 := h.1
    simpa using h1
  · have h2 := h.2 10 (by simp)
    simpa using h2

lemma loadAgents_isSome (ads : List AgentData) :
    (loadAgents ads).toOption.isSome =
      ads.all (fun ad => ad.name.isSome && ad.type.isSome) := by
  induction ads with
  | nil => rfl
  | cons ad rest ih =>
      unfold loadAgents loadAgent
      cases hn : ad.name <;> cases ht : ad.type <;>
        cases hr : loadAgents rest <;>
        simp_all [Except.toOption]

lemma loadTrigger_isSome (td : TriggerData) :
    (loadTrigger td).toOption.isSome = triggerWellFormed td := by
  unfold loadTrigger triggerWellFormed
  have h := loadAgents_isSome td.agents
  cases ha : loadAgents td.agents <;> cases hn : td.name <;>
    cases hc : td.condition <;> simp_all [Except.toOption]

lemma load_rules_go_spec (doc : List TriggerData) : ∀ acc : List Trigger,
    (load_rules_go acc doc).1 =
      acc ++ (doc.takeWhile triggerWellFormed).filterMap
        (fun td => (loadTrigger td).toOption) ∧
    (load_rules_go acc doc).2.isSome = !doc.all triggerWellFormed := by
  induction doc with
  | nil => intro acc; simp [load_rules_go]
  | cons td rest ih =>
      intro acc
      cases hlt : loadTrigger td with
      | error e =>
          have hwf : triggerWellFormed td = false := by
            have hts := loadTrigger_isSome td
            rw [hlt] at hts
            simpa [Except.toOption] using hts.symm
          simp [load_rules_go, hlt, hwf, List.takeWhile_cons, List.all_cons]
      | ok t =>
          have hwf : triggerWellFormed td = true := by
            have hts := loadTrigger_isSome td
            rw [hlt] at hts
            simpa [Except.toOption] using hts.symm
          have hih := ih (acc ++ [t])
          simp [load_rules_go, hlt, hwf, List.takeWhile_cons, List.all_cons,
            hih.1, hih.2, Except.toOption]

/-- Claim C4 (counterexample): loading a document whose first trigger is valid
and whose second lacks the required name raises a load error, yet the
engine is left with the first document trigger installed — not with the
previously loaded trigger set — because `load_rules` executes
`self.triggers = []` and appends parsed triggers before hitting the
KeyError. -/
theorem load_rules_installs_partial_set :
    (load_rules [Trigger.mk "old_trigger" "always" [] true]
        [TriggerData.mk (some "t1") (some "always") none [],
         TriggerData.mk none (some "always") none []]).2.isSome = true ∧
    (load_rules [Trigger.mk "old_trigger" "always" [] true]
        [TriggerData.mk (some "t1") (some "always") none [],
         TriggerData.mk none (some "always") none []]).1 ≠
      [Trigger.mk "old_trigger" "always" [] true] := by
  decide

/-- Claim C4 (amended): on a malformed document (one containing an entry with
a missing required field) `load_rules` raises a load error, but the
previous trigger set is not preserved: the engine ends up with exactly
the successfully parsed prefix of the document (possibly empty), and the
outcome is independent of the previously loaded set. -/
theorem load_rules_error_keeps_parsed_prefix (old : List Trigger)
    (doc : List TriggerData) (h : doc.all triggerWellFormed = false) :
    (load_rules old doc).2.isSome = true ∧
    (load_rules old doc).1 =
      (doc.takeWhile triggerWellFormed).filterMap
        (fun td => (loadTrigger td).toOption) ∧
    load_rules old doc = load_rules [] doc := by
  have hs := load_rules_go_spec doc []
  refine ⟨?_, ?_, rfl⟩
  · have h2 := hs.2
    rw [h] at h2
    exact h2
  · simpa using hs.1

/-- Claim C4 (witness): instantiation of the amended statement at a concrete
previously loaded set and a concrete document whose second trigger lacks
its name. -/
theorem load_rules_error_keeps_parsed_prefix_witness :
    (load_rules [Trigger.mk "old_trigger" "always" [] true]
        [TriggerData.mk (some "t1") (some "always") none [],
         TriggerData.mk none (some "always") none []]).2.isSome = true ∧
    (load_rules [Trigger.mk "old_trigger" "always" [] true]
        [TriggerData.mk (some "t1") (some "always") none [],
         TriggerData.mk none (some "always") none []]).1 =
      (([TriggerData.mk (some "t1") (some "always") none [],
         TriggerData.mk none (some "always") none []].takeWhile triggerWellFormed).filterMap
        (fun td => (loadTrigger td).toOption)) ∧
    load_rules [Trigger.mk "old_trigger" "always" [] true]
        [TriggerData.mk (some "t1") (some "always") none [],
         TriggerData.mk none (some "always") none []] =
      load_rules []
        [TriggerData.mk (some "t1") (some "always") none [],
         TriggerData.mk none (some "always") none []] :=
  load_rules_error_keeps_parsed_prefix
    [Trigger.mk "old_trigger" "always" [] true]
    [TriggerData.mk (some "t1") (some "always") none [],
     TriggerData.mk none (some "always") none []]
    (by decide)

/-- Claim C5 (counterexample): an execution attempt on a registered agent type
("code_analysis", so a type-specific branch is started) whose external
call fails ends with status error and leaves execution_count unchanged
at 0 — the source increments `agent.execution_count` only on the success
path, after the branch returns, so an errored started attempt does not
add 1 as the claim states. -/
theorem execution_count_unchanged_on_error :
    (get_agent_info "code_analysis").isSome = true ∧
    (_execute_agent demoAgent {} (Except.error "service unavailable") 1 0).1.status
      = "error" ∧
    (_execute_agent demoAgent {} (Except.error "service unavailable") 1 0).2.success
      = false ∧
    demoAgent.execution_count = 0 ∧
    (_execute_agent demoAgent {} (Except.error "service unavailable") 1 0).1.execution_count
      = 0 := by
  refine ⟨rfl, rfl, rfl, rfl, rfl⟩

/-- Claim C5 (amended): execution_count increases by exactly 1 precisely on
attempts that complete successfully (registered type and successful
external call, status completed); it is unchanged both when the agent
type is unrecognized and when a started type-specific branch ends in
status error. -/
theorem execution_count_increment (a : Agent) (ctx : ProjectRequest)
    (resp : Except String String) (el : ℚ) (now : Nat) :
    (_execute_agent a ctx resp el now).1.execution_count =
      (match get_agent_info a.agent_type, resp with
       | some _, Except.ok _ => a.execution_count + 1
       | _, _ => a.execution_count) ∧
    (_execute_agent a ctx resp el now).1.status =
      (match get_agent_info a.agent_type, resp with
       | some _, Except.ok _ => "completed"
       | _, _ => "error") := by
  unfold _execute_agent
  cases hi : get_agent_info a.agent_type with
  | none => cases resp <;> exact ⟨rfl, rfl⟩
  | some info =>
      cases resp <;>
        simp only [_execute_code_analysis_agent, _execute_test_automation_agent,
          _execute_documentation_agent, _execute_deployment_agent,
          _execute_generic_agent, Except.map] <;>
        split_ifs <;> exact ⟨rfl, rfl⟩

/-- Claim C6: executing an agent whose type is not in the registry does not
raise: it returns success=false with the error message
"Unknown agent type: " followed by the type, carries an execution_time,
and sets the agent status to error. -/
theorem execute_unknown_type_graceful (a : Agent) (ctx : ProjectRequest)
    (resp : Except String String) (el : ℚ) (now : Nat)
    (h : get_agent_info a.agent_type = none) :
    (_execute_agent a ctx resp el now).2.success = false ∧
    (_execute_agent a ctx resp el now).2.error =
      some ("Unknown agent type: " ++ a.agent_type) ∧
    (_execute_agent a ctx resp el now).2.execution_time = some el ∧
    (_execute_agent a ctx resp el now).1.status = "error" := by
  unfold _execute_agent
  rw [h]
  exact ⟨rfl, rfl, rfl, rfl⟩

/-- Claim C6 (witness): instantiation at an agent of the unregistered type
"quantum". -/
theorem execute_unknown_type_graceful_witness :
    (_execute_agent
        { name := "q", agent_type := "quantum", priority := "medium", config := {} }
        {} (Except.ok "hello") 2 0).2.success = false ∧
    (_execute_agent
        { name := "q", agent_type := "quantum", priority := "medium", config := {} }
        {} (Except.ok "hello") 2 0).2.error =
      some ("Unknown agent type: " ++ "quantum") ∧
    (_execute_agent
        { name := "q", agent_type := "quantum", priority := "medium", config := {} }
        {} (Except.ok "hello") 2 0).2.execution_time = some 2 ∧
    (_execute_agent
        { name := "q", agent_type := "quantum", priority := "medium", config := {} }
        {} (Except.ok "hello") 2 0).1.status = "error" :=
  execute_unknown_type_graceful
    { name := "q", agent_type := "quantum", priority := "medium", config := {} }
    {} (Except.ok "hello") 2 0 rfl

/-- Claim C7: the AI-fallback evaluation returns true exactly when the
external call succeeded and its reply, stripped of surrounding
whitespace and lowercased, is the literal string "true"; every other
reply and every external failure yields false (the exception is caught
inside the function, which is total — nothing propagates). -/
theorem custom_condition_true_iff (ai : Except String String) :
    _evaluate_custom_condition ai = true ↔
      ∃ s, ai = Except.ok s ∧ lowerStr (stripStr s) = "true" := by
  cases ai with
  | error e => simp [_evaluate_custom_condition]
  | ok s =>
      simp only [_evaluate_custom_condition, beq_iff_eq, Except.ok.injEq]
      constructor
      · intro h
        exact ⟨s, rfl, h⟩
      · rintro ⟨s1, h1, h2⟩
        rw [h1]
        exact h2

/-- Claim C8: evaluating the condition "file_changed" never raises and
returns exactly the truthiness of the context's files_modified value:
true for a present non-empty list (or a truthy non-list value), false
for an absent field, an empty list, or a falsy non-list value. -/
theorem evaluate_file_changed_truthiness (ctx : ProjectRequest)
    (ai : Except String String) :
    _evaluate_trigger "file_changed" ctx ai =
      Except.ok (filesTruthy ctx.files_modified) ∧
    (_evaluate_trigger "file_changed" ctx ai = Except.ok true ↔
      (∃ l, ctx.files_modified = FilesModified.strList l ∧ l ≠ []) ∨
        ctx.files_modified = FilesModified.nonIterable true) := by
  refine ⟨rfl, ?_⟩
  show Except.ok (filesTruthy ctx.files_modified) = Except.ok true ↔ _
  cases hf : ctx.files_modified with
  | absent => simp [filesTruthy]
  | strList l => cases l <;> simp [filesTruthy]
  | nonIterable t => cases t <;> simp [filesTruthy]

/-- Claim C9: every condition whose lowercased form is the exact string
"always" (so any casing, e.g. "ALWAYS") evaluates to true for every
context without consulting it, while every condition whose lowercased
form is not an exact member of the fixed vocabulary — such as "always "
with a trailing space — is handed to the AI-fallback path, whose
outcome it returns verbatim. -/
theorem evaluate_always_exact_matching (condition : String)
    (ctx : ProjectRequest) (ai : Except String String) :
    (lowerStr condition = "always" →
      _evaluate_trigger condition ctx ai = Except.ok true) ∧
    (lowerStr condition ∉ fixedVocabulary →
      _evaluate_trigger condition ctx ai =
        Except.ok (_evaluate_custom_condition ai)) := by
  constructor
  · intro h
    simp only [_evaluate_trigger, h]
    rfl
  · intro h
    simp only [fixedVocabulary, List.mem_cons, List.not_mem_nil, or_false,
      not_or] at h
    obtain ⟨n1, n2, n3, n4, n5, n6⟩ := h
    simp [_evaluate_trigger,
      beq_eq_false_iff_ne.mpr n1, beq_eq_false_iff_ne.mpr n2,
      beq_eq_false_iff_ne.mpr n3, beq_eq_false_iff_ne.mpr n4,
      beq_eq_false_iff_ne.mpr n5, beq_eq_false_iff_ne.mpr n6]

/-- Claim C9 (witness): instantiation at the two exemplar strings of the
claim: "ALWAYS" lowers to "always" and fires unconditionally even when
the external service is down, while "always " (trailing space) lowers
to no fixed-vocabulary member and returns the AI-fallback outcome. -/
theorem evaluate_always_exact_matching_witness :
    _evaluate_trigger "ALWAYS" badCtx (Except.error "service down") =
      Except.ok true ∧
    _evaluate_trigger "always " badCtx (Except.ok " TRUE ") =
      Except.ok (_evaluate_custom_condition (Except.ok " TRUE ")) :=
  ⟨(evaluate_always_exact_matching "ALWAYS" badCtx
      (Except.error "service down")).1 (by decide),
   (evaluate_always_exact_matching "always " badCtx
      (Except.ok " TRUE ")).2 (by decide)⟩

/-- Claim C10: whenever an exception escapes the trigger/agent loop of
`process_project_request`, the returned report carries overall_status
"error" and an empty meta_agent_insights list — regardless of how many
suggestions the MetaAgent has accumulated — because the insights are
copied into the report only after the loop completes without raising. -/
theorem process_error_empty_insights (ts : List Trigger) (ctx : ProjectRequest)
    (rc : RunCtx) (m : MetaState) (msg : String)
    (h : (runTriggers rc ctx ts 0 [] m).err = some msg) :
    (process_project_request ts ctx rc m).1.overall_status = "error" ∧
    (process_project_request ts ctx rc m).1.meta_agent_insights = [] := by
  simp only [process_project_request]
  rw [h]
  exact ⟨rfl, rfl⟩

/-- Claim C10 (witness): a single enabled trigger whose condition
"test_files_modified" raises a TypeError on a context carrying a
non-iterable files_modified value, recorded against a MetaAgent that
already holds one suggestion: the report is an error report with empty
insights. -/
theorem process_error_empty_insights_witness :
    (process_project_request [demoTrigger] badCtx demoRC demoMeta).1.overall_status
      = "error" ∧
    (process_project_request [demoTrigger] badCtx demoRC demoMeta).1.meta_agent_insights
      = [] :=
  process_error_empty_insights [demoTrigger] badCtx demoRC demoMeta
    "TypeError: bool object is not iterable" rfl

end AgenticInjection
